import Mathlib

/-!
Shallow embedding of `src/pipeline.py`, a gem5 configuration script.

The script has two core functions:
* `create_system(cpu_type, num_threads, issue_width, branch_prediction)` —
  builds a `System` object (clock domain, memory bus, CPU with explicitly
  assigned stage widths, memory controller, workload binding).
* `run_simulation(...)` — builds the system, wraps it in a `Root`,
  instantiates, simulates, prints the termination line, dumps/resets stats,
  reads and prints the per-run metrics, then resets/dumps again.

The simulation engine (m5) is external: its outputs (tick, cause, counters)
are modelled as an opaque `EngineOutcome` record, and the orchestration is
modelled as the ordered list of observable events it performs.
-/

/-- A Python value passed as `branch_prediction`. Genuine gem5 predictor
objects (e.g. `BiModeBP()`) are ordinary Python objects and are truthy;
the `truthy` field records the value's Python truth value, so that the
script's `if branch_prediction:` test can be translated faithfully. -/
structure PredictorVal where
  name : String
  truthy : Bool
deriving DecidableEq, Repr

/-- The `BiModeBP()` predictor object used by the second scenario.
As a gem5 SimObject it is truthy. -/
def BiModeBP : PredictorVal :=
  { name := "BiModeBP", truthy := true }

/-- Python truthiness of the optional `branch_prediction` argument:
`None` is falsy, any other value has its own truth value. -/
def truthyOpt : Option PredictorVal → Bool
  | none => false
  | some p => p.truthy

/-- The CPU object as configured by the script. Each width field is the
value explicitly assigned by `create_system`; `none` means the script never
assigns that attribute (the engine default, unknown to the script, applies). -/
structure Cpu where
  kind : String
  fetchWidth : Option Nat := none
  decodeWidth : Option Nat := none
  issueWidth : Option Nat := none
  executeWidth : Option Nat := none
  memoryWidth : Option Nat := none
  commitWidth : Option Nat := none
  numThreads : Option Nat := none
  branchPred : Option PredictorVal := none
  interruptsCreated : Bool := false
  workloadCmd : List String := []
  threadsCreated : Bool := false
deriving DecidableEq, Repr

/-- The `System` object assembled by `create_system`; fields record the
attribute assignments the script performs. -/
structure SystemCfg where
  clk_domain_clock : String
  mem_mode : String
  mem_ranges : List String
  mem_ctrl_dram : String
  mem_ctrl_dram_range : String
  mem_ctrl_port_connected : Bool
  icache_port_connected : Bool
  dcache_port_connected : Bool
  system_port_connected : Bool
  cpu : Cpu
  workload_binary : String
deriving DecidableEq, Repr

/-- The fixed workload path: `os.path.join(m5.options.outdir, 'tests',
'test-progs', 'hello', 'bin', 'x86', 'linux', 'hello')`. -/
def binaryPath (outdir : String) : String :=
  outdir ++ "/tests/test-progs/hello/bin/x86/linux/hello"

/-- Embedding of `create_system` (src/pipeline.py lines 23-81).
Raising `ValueError("Unsupported CPU type")` is modelled as `.error`. -/
def create_system (outdir cpu_type : String) (num_threads issue_width : Nat)
    (branch_prediction : Option PredictorVal) : Except String SystemCfg :=
  let cpuE : Except String Cpu :=
    if cpu_type = "MinorCPU" then
      .ok { kind := "MinorCPU", fetchWidth := some 1, decodeWidth := some 1,
            executeWidth := some 1, memoryWidth := some 1, commitWidth := some 1 }
    else if cpu_type = "DerivO3CPU" then
      .ok { kind := "DerivO3CPU", fetchWidth := some issue_width,
            decodeWidth := some issue_width, issueWidth := some issue_width,
            executeWidth := some issue_width, commitWidth := some issue_width,
            numThreads := some num_threads }
    else
      .error "Unsupported CPU type"
  match cpuE with
  | .error msg => .error msg
  | .ok cpu0 =>
    let cpu1 :=
      if truthyOpt branch_prediction then
        { cpu0 with branchPred := branch_prediction }
      else cpu0
    let binary := binaryPath outdir
    let cpu2 := { cpu1 with interruptsCreated := true,
                            workloadCmd := [binary],
                            threadsCreated := true }
    .ok { clk_domain_clock := "1GHz",
          mem_mode := "timing",
          mem_ranges := ["512MB"],
          mem_ctrl_dram := "DDR3_1600_8x8",
          mem_ctrl_dram_range := "512MB",
          mem_ctrl_port_connected := true,
          icache_port_connected := true,
          dcache_port_connected := true,
          system_port_connected := true,
          cpu := cpu2,
          workload_binary := binary }

/-- Quantities the external engine reports for one run: current tick at
termination, the exit event's cause, and the accumulated CPU counters the
script reads (`numInsts`, `numCycles`, `ipc` — the last printed verbatim). -/
structure EngineOutcome where
  tick : Nat
  cause : String
  insts : Nat
  cycles : Nat
  ipc : String
deriving DecidableEq, Repr

/-- Observable events of the orchestration layer, in program order. -/
inductive Ev
  | createSystem (cpu_type : String)
  | rootCreate (full_system : Bool)
  | instantiate
  | simulate
  | captureCause
  | statsDump
  | statsReset
  | captureIPC
  | captureInsts
  | captureCycles
  | printLine (s : String)
deriving DecidableEq, Repr

/-- Embedding of `run_simulation` (src/pipeline.py lines 84-109) as the
list of events it performs, paired with the error it raises (if any).
On an unsupported CPU type, `create_system` raises before any engine
resource (`Root`, `m5.instantiate`) is touched. -/
def run_events (outdir cpu_type : String) (num_threads issue_width : Nat)
    (bp : Option PredictorVal) (e : EngineOutcome) :
    List Ev × Option String :=
  match create_system outdir cpu_type num_threads issue_width bp with
  | .error msg => ([Ev.createSystem cpu_type], some msg)
  | .ok _ =>
    ([Ev.createSystem cpu_type,
      Ev.rootCreate false,
      Ev.instantiate,
      Ev.printLine "Starting simulation...",
      Ev.simulate,
      Ev.captureCause,
      Ev.printLine ("Simulation ended at tick " ++ toString e.tick ++
        " because " ++ e.cause),
      Ev.printLine "Collecting stats...",
      Ev.statsDump,
      Ev.statsReset,
      Ev.captureIPC,
      Ev.captureInsts,
      Ev.captureCycles,
      Ev.printLine ("Instructions committed: " ++ toString e.insts),
      Ev.printLine ("Instructions per Cycle: " ++ e.ipc),
      Ev.printLine ("Total cycles: " ++ toString e.cycles),
      Ev.statsReset,
      Ev.statsDump], none)

/-- Embedding of the `__m5_main__` block (src/pipeline.py lines 112-128):
the four scenarios run in sequence, each preceded by its banner line. -/
def main_events (outdir : String) (e1 e2 e3 e4 : EngineOutcome) : List Ev :=
  Ev.printLine "Basic pipeline simulation..." ::
    (run_events outdir "MinorCPU" 1 1 none e1).1 ++
  Ev.printLine "Simulation with branch prediction..." ::
    (run_events outdir "MinorCPU" 1 1 (some BiModeBP) e2).1 ++
  Ev.printLine "Superscalar configuration..." ::
    (run_events outdir "DerivO3CPU" 1 2 none e3).1 ++
  Ev.printLine "SMT configuration with 2 threads..." ::
    (run_events outdir "DerivO3CPU" 2 2 none e4).1

/-- The lines a trace prints, in order. -/
def outputLines (tr : List Ev) : List String :=
  tr.filterMap fun ev =>
    match ev with
    | Ev.printLine s => some s
    | _ => none

def isReset : Ev → Bool
  | Ev.statsReset => true
  | _ => false

def isDump : Ev → Bool
  | Ev.statsDump => true
  | _ => false

def isSim : Ev → Bool
  | Ev.simulate => true
  | _ => false

def isRoot : Ev → Bool
  | Ev.rootCreate _ => true
  | _ => false

def isInst : Ev → Bool
  | Ev.instantiate => true
  | _ => false

def isCreate : Ev → Bool
  | Ev.createSystem _ => true
  | _ => false

def isCapCause : Ev → Bool
  | Ev.captureCause => true
  | _ => false

def isCapIPC : Ev → Bool
  | Ev.captureIPC => true
  | _ => false

def isCapInsts : Ev → Bool
  | Ev.captureInsts => true
  | _ => false

def isCapCycles : Ev → Bool
  | Ev.captureCycles => true
  | _ => false

/-- Index of the first event satisfying `p` (list length if none). -/
def idxOf (p : Ev → Bool) (tr : List Ev) : Nat :=
  List.findIdx p tr

/-- Scans a trace and checks that every `createSystem` event after the
first is preceded by a `statsReset` issued since the previous
`createSystem`. The Boolean argument is "a reset has been seen since the
last system construction (or no construction happened yet)". -/
def resetsSeparateCreates : List Ev → Bool → Bool
  | [], _ => true
  | Ev.createSystem _ :: rest, ok => ok && resetsSeparateCreates rest false
  | Ev.statsReset :: rest, _ => resetsSeparateCreates rest true
  | _ :: rest, ok => resetsSeparateCreates rest ok

/-- The claim C2 states about a run trace: the counter captures
(`ipc`, `numInsts`, `numCycles`) all happen strictly before the first
counter reset. -/
def capturesPrecedeReset (tr : List Ev) : Prop :=
  idxOf isCapIPC tr < idxOf isReset tr ∧
  idxOf isCapInsts tr < idxOf isReset tr ∧
  idxOf isCapCycles tr < idxOf isReset tr

/-- The output shape claim C8 states: the run's printed output consists of
exactly the termination line followed by the three metric lines. -/
def c8OutputForm (lines : List String) : Prop :=
  ∃ t c n f y,
    lines = ["Simulation ended at tick " ++ t ++ " because " ++ c,
             "Instructions committed: " ++ n,
             "Instructions per Cycle: " ++ f,
             "Total cycles: " ++ y]

/-- An event checker for the non-full-system root object creation,
`Root(full_system=False, system=sys)`. -/
def isRootNonFS : Ev → Bool
  | Ev.rootCreate false => true
  | _ => false

/-- Claim C4: for `core_kind = SimpleInOrder` (the `MinorCPU` branch),
`create_system` produces a core with width 1 at every pipeline stage
(fetch, decode, execute, memory, commit), for every `issue_width`, which
is ignored. -/
theorem c4_minor_widths (outdir : String) (nt iw : Nat)
    (bp : Option PredictorVal) (s : SystemCfg)
    (h : create_system outdir "MinorCPU" nt iw bp = .ok s) :
    s.cpu.fetchWidth = some 1 ∧ s.cpu.decodeWidth = some 1 ∧
    s.cpu.executeWidth = some 1 ∧ s.cpu.memoryWidth = some 1 ∧
    s.cpu.commitWidth = some 1 := by
  cases hb : truthyOpt bp <;>
    simp [create_system, hb] at h <;>
    simp [← h]

/-- Witness for C4 at `issue_width = 7`: the requested width is ignored
and every stage width is 1. -/
theorem c4_minor_widths_witness :
    ∃ s, create_system "out" "MinorCPU" 1 7 none = .ok s ∧
      s.cpu.fetchWidth = some 1 ∧ s.cpu.decodeWidth = some 1 ∧
      s.cpu.executeWidth = some 1 ∧ s.cpu.memoryWidth = some 1 ∧
      s.cpu.commitWidth = some 1 :=
  ⟨_, rfl, c4_minor_widths "out" 1 7 none _ rfl⟩

/-- Claim C1 is false as stated: for `SuperscalarOOO` (the `DerivO3CPU`
branch) with `issue_width = 2, thread_count = 2`, the fetch, decode,
execute and commit widths and `numThreads` are all 2, but the memory
stage width is never assigned (the script sets `issueWidth`, not
`memoryWidth`), so the five widths named by the claim do not all equal 2. -/
theorem c1_counterexample :
    ∃ s, create_system "out" "DerivO3CPU" 2 2 none = .ok s ∧
      s.cpu.numThreads = some 2 ∧ s.cpu.fetchWidth = some 2 ∧
      s.cpu.decodeWidth = some 2 ∧ s.cpu.executeWidth = some 2 ∧
      s.cpu.commitWidth = some 2 ∧ ¬ s.cpu.memoryWidth = some 2 :=
  ⟨_, rfl, rfl, rfl, rfl, rfl, rfl, by decide⟩

/-- Claim C1 (amended): for the `DerivO3CPU` branch, the fetch, decode,
issue, execute and commit widths all equal the requested `issue_width`
and `numThreads` equals the requested thread count; the memory stage
width is left unset (engine default). -/
theorem c1_superscalar_widths (outdir : String) (nt iw : Nat)
    (bp : Option PredictorVal) (s : SystemCfg)
    (h : create_system outdir "DerivO3CPU" nt iw bp = .ok s) :
    s.cpu.fetchWidth = some iw ∧ s.cpu.decodeWidth = some iw ∧
    s.cpu.issueWidth = some iw ∧ s.cpu.executeWidth = some iw ∧
    s.cpu.commitWidth = some iw ∧ s.cpu.memoryWidth = none ∧
    s.cpu.numThreads = some nt := by
  cases hb : truthyOpt bp <;>
    simp [create_system, hb] at h <;>
    simp [← h]

/-- Witness for the amended C1 at `issue_width = 2, thread_count = 2`. -/
theorem c1_superscalar_widths_witness :
    ∃ s, create_system "out" "DerivO3CPU" 2 2 none = .ok s ∧
      s.cpu.fetchWidth = some 2 ∧ s.cpu.decodeWidth = some 2 ∧
      s.cpu.issueWidth = some 2 ∧ s.cpu.executeWidth = some 2 ∧
      s.cpu.commitWidth = some 2 ∧ s.cpu.memoryWidth = none ∧
      s.cpu.numThreads = some 2 :=
  ⟨_, rfl, c1_superscalar_widths "out" 2 2 none _ rfl⟩

/-- Claim C3: calling the builder with a `cpu_type` outside
`{MinorCPU, DerivO3CPU}` fails with the `Unsupported CPU type` error, no
system description is produced, and the run performs no engine-resource
event (no root object, no instantiation, no simulation). -/
theorem c3_invalid_kind (outdir ct : String) (nt iw : Nat)
    (bp : Option PredictorVal) (e : EngineOutcome)
    (h1 : ct ≠ "MinorCPU") (h2 : ct ≠ "DerivO3CPU") :
    create_system outdir ct nt iw bp = .error "Unsupported CPU type" ∧
    (run_events outdir ct nt iw bp e).2 = some "Unsupported CPU type" ∧
    List.countP isRoot (run_events outdir ct nt iw bp e).1 = 0 ∧
    List.countP isInst (run_events outdir ct nt iw bp e).1 = 0 ∧
    List.countP isSim (run_events outdir ct nt iw bp e).1 = 0 := by
  have hc : create_system outdir ct nt iw bp = .error "Unsupported CPU type" := by
    simp [create_system, h1, h2]
  refine ⟨hc, ?_, ?_, ?_, ?_⟩ <;>
    simp [run_events, hc, isRoot, isInst, isSim, List.countP_cons, List.countP_nil]

/-- Witness for C3 at the sentinel value `AtomicSimpleCPU`. -/
theorem c3_invalid_kind_witness :
    create_system "out" "AtomicSimpleCPU" 1 1 none = .error "Unsupported CPU type" ∧
    (run_events "out" "AtomicSimpleCPU" 1 1 none ⟨0, "x", 0, 0, "0"⟩).2 =
      some "Unsupported CPU type" ∧
    List.countP isRoot (run_events "out" "AtomicSimpleCPU" 1 1 none ⟨0, "x", 0, 0, "0"⟩).1 = 0 ∧
    List.countP isInst (run_events "out" "AtomicSimpleCPU" 1 1 none ⟨0, "x", 0, 0, "0"⟩).1 = 0 ∧
    List.countP isSim (run_events "out" "AtomicSimpleCPU" 1 1 none ⟨0, "x", 0, 0, "0"⟩).1 = 0 :=
  c3_invalid_kind "out" "AtomicSimpleCPU" 1 1 none ⟨0, "x", 0, 0, "0"⟩
    (by decide) (by decide)

/-- Claim C5: a genuine predictor object (truthy, as every gem5 SimObject
is) passed as `branch_prediction` is attached to the core for both
supported CPU kinds; when the argument is absent (`None`, the default) no
predictor is attached. -/
theorem c5_predictor_attached (outdir : String) (nt iw : Nat)
    (p : PredictorVal) (hp : p.truthy = true) (ct : String)
    (hct : ct = "MinorCPU" ∨ ct = "DerivO3CPU") :
    (∀ s, create_system outdir ct nt iw (some p) = .ok s →
      s.cpu.branchPred = some p) ∧
    (∀ s, create_system outdir ct nt iw none = .ok s →
      s.cpu.branchPred = none) := by
  rcases hct with rfl | rfl <;>
    refine ⟨fun s h => ?_, fun s h => ?_⟩ <;>
    simp [create_system, truthyOpt, hp] at h <;>
    simp [← h]

/-- Witness for C5: `BiModeBP` is attached on `MinorCPU`, and the
absent case yields no predictor. -/
theorem c5_predictor_attached_witness :
    (∀ s, create_system "out" "MinorCPU" 1 1 (some BiModeBP) = .ok s →
      s.cpu.branchPred = some BiModeBP) ∧
    (∀ s, create_system "out" "MinorCPU" 1 1 none = .ok s →
      s.cpu.branchPred = none) :=
  c5_predictor_attached "out" 1 1 BiModeBP rfl "MinorCPU" (Or.inl rfl)

/-- Claim C10: the presence test for the predictor argument is Python
truthiness, so any falsy value (`None` or a falsy object) leaves the core
with no predictor attached, for every CPU kind that builds successfully. -/
theorem c10_falsy_predictor_ignored (outdir ct : String) (nt iw : Nat)
    (bp : Option PredictorVal) (hb : truthyOpt bp = false) (s : SystemCfg)
    (h : create_system outdir ct nt iw bp = .ok s) :
    s.cpu.branchPred = none := by
  by_cases h1 : ct = "MinorCPU"
  · subst h1
    simp [create_system, hb] at h
    simp [← h]
  · by_cases h2 : ct = "DerivO3CPU"
    · subst h2
      simp [create_system, hb] at h
      simp [← h]
    · simp [create_system, h1, h2] at h

/-- Witness for C10: a present-but-falsy value is silently treated as
absent. -/
theorem c10_falsy_predictor_ignored_witness :
    ∃ s, create_system "out" "MinorCPU" 1 1 (some ⟨"Falsy", false⟩) = .ok s ∧
      s.cpu.branchPred = none :=
  ⟨_, rfl, c10_falsy_predictor_ignored "out" "MinorCPU" 1 1
    (some ⟨"Falsy", false⟩) rfl _ rfl⟩

/-- Claim C9: every successfully built system, for every configuration,
uses the fixed constants — a 1GHz clock, a single 512MB memory range (the
DRAM bound to it), and the one fixed workload binary path with a
single-element command line given by that same path. Since the path
depends only on the engine's output directory, every scenario of one
process gets the identical workload. -/
theorem c9_fixed_constants (outdir ct : String) (nt iw : Nat)
    (bp : Option PredictorVal) (s : SystemCfg)
    (h : create_system outdir ct nt iw bp = .ok s) :
    s.clk_domain_clock = "1GHz" ∧ s.mem_ranges = ["512MB"] ∧
    s.mem_ctrl_dram_range = "512MB" ∧
    s.workload_binary = binaryPath outdir ∧
    s.cpu.workloadCmd = [binaryPath outdir] := by
  by_cases h1 : ct = "MinorCPU"
  · subst h1
    cases hb : truthyOpt bp <;> simp [create_system, hb] at h <;> simp [← h]
  · by_cases h2 : ct = "DerivO3CPU"
    · subst h2
      cases hb : truthyOpt bp <;> simp [create_system, hb] at h <;> simp [← h]
    · simp [create_system, h1, h2] at h

/-- Witness for C9 on the SMT scenario's configuration. -/
theorem c9_fixed_constants_witness :
    ∃ s, create_system "out" "DerivO3CPU" 2 2 none = .ok s ∧
      s.clk_domain_clock = "1GHz" ∧ s.mem_ranges = ["512MB"] ∧
      s.mem_ctrl_dram_range = "512MB" ∧
      s.workload_binary = binaryPath "out" ∧
      s.cpu.workloadCmd = [binaryPath "out"] :=
  ⟨_, rfl, c9_fixed_constants "out" "DerivO3CPU" 2 2 none _ rfl⟩

/-- A concrete engine outcome used for concrete evaluations of the run
trace. -/
def demoE : EngineOutcome :=
  { tick := 0, cause := "exiting", insts := 5, cycles := 10, ipc := "0.5" }

/-- The concrete trace of a basic `MinorCPU` run with the demo outcome. -/
def demoRun : List Ev :=
  (run_events "out" "MinorCPU" 1 1 none demoE).1

/-- Claim C2 is false as stated: in the concrete basic run, the first
`m5.stats.reset()` (line 98) happens before the script reads `ipc`,
`numInsts` and `numCycles` (lines 101-103), so the counter captures do
not all precede every reset. -/
theorem c2_counterexample : ¬ capturesPrecedeReset demoRun := by
  unfold capturesPrecedeReset
  decide

/-- Claim C2 (amended): `termination_cause` is captured before any
counter reset, but the `ipc`/`instructions`/`cycles` values are read only
after the first stats dump and the first reset — and before the second
reset (exactly one of the two resets precedes each read). -/
theorem c2_capture_order (outdir ct : String) (nt iw : Nat)
    (bp : Option PredictorVal) (e : EngineOutcome) (tr : List Ev)
    (hct : ct = "MinorCPU" ∨ ct = "DerivO3CPU")
    (htr : tr = (run_events outdir ct nt iw bp e).1) :
    List.countP isReset (tr.take (idxOf isCapCause tr)) = 0 ∧
    List.countP isReset tr = 2 ∧
    List.countP isDump (tr.take (idxOf isCapIPC tr)) = 1 ∧
    List.countP isReset (tr.take (idxOf isCapIPC tr)) = 1 ∧
    List.countP isReset (tr.take (idxOf isCapInsts tr)) = 1 ∧
    List.countP isReset (tr.take (idxOf isCapCycles tr)) = 1 := by
  subst htr
  rcases hct with rfl | rfl <;> rcases bp with _ | ⟨nm, tb⟩ <;> try cases tb
  all_goals exact ⟨rfl, rfl, rfl, rfl, rfl, rfl⟩

/-- Witness for the amended C2 on the concrete basic run. -/
theorem c2_capture_order_witness :
    List.countP isReset (demoRun.take (idxOf isCapCause demoRun)) = 0 ∧
    List.countP isReset demoRun = 2 ∧
    List.countP isDump (demoRun.take (idxOf isCapIPC demoRun)) = 1 ∧
    List.countP isReset (demoRun.take (idxOf isCapIPC demoRun)) = 1 ∧
    List.countP isReset (demoRun.take (idxOf isCapInsts demoRun)) = 1 ∧
    List.countP isReset (demoRun.take (idxOf isCapCycles demoRun)) = 1 :=
  c2_capture_order "out" "MinorCPU" 1 1 none demoE demoRun (Or.inl rfl) rfl

/-- Claim C6: at the end of every run the counters are dumped twice and
reset twice, all after the single simulate event (so no simulation occurs
between the two resets), and in the four-scenario batch a reset always
occurs between one system construction and the next. -/
theorem c6_double_flush (outdir ct : String) (nt iw : Nat)
    (bp : Option PredictorVal) (e : EngineOutcome) (tr : List Ev)
    (hct : ct = "MinorCPU" ∨ ct = "DerivO3CPU")
    (htr : tr = (run_events outdir ct nt iw bp e).1) :
    List.countP isDump tr = 2 ∧
    List.countP isReset tr = 2 ∧
    List.countP isSim tr = 1 ∧
    List.countP isDump (tr.take (idxOf isSim tr)) = 0 ∧
    List.countP isReset (tr.take (idxOf isSim tr)) = 0 ∧
    List.countP isSim (tr.drop (idxOf isReset tr)) = 0 ∧
    (∀ e1 e2 e3 e4,
      resetsSeparateCreates (main_events outdir e1 e2 e3 e4) true = true) := by
  subst htr
  rcases hct with rfl | rfl <;> rcases bp with _ | ⟨nm, tb⟩ <;> try cases tb
  all_goals exact ⟨rfl, rfl, rfl, rfl, rfl, rfl, fun _ _ _ _ => rfl⟩

/-- Witness for C6 on the concrete basic run. -/
theorem c6_double_flush_witness :
    List.countP isDump demoRun = 2 ∧
    List.countP isReset demoRun = 2 ∧
    List.countP isSim demoRun = 1 ∧
    List.countP isDump (demoRun.take (idxOf isSim demoRun)) = 0 ∧
    List.countP isReset (demoRun.take (idxOf isSim demoRun)) = 0 ∧
    List.countP isSim (demoRun.drop (idxOf isReset demoRun)) = 0 ∧
    (∀ e1 e2 e3 e4,
      resetsSeparateCreates (main_events "out" e1 e2 e3 e4) true = true) :=
  c6_double_flush "out" "MinorCPU" 1 1 none demoE demoRun (Or.inl rfl) rfl

/-- Claim C7: each run's steps happen in strict order — exactly one
non-full-system root wrap, which precedes the engine instantiation, which
precedes the simulate call; the termination cause and all counter reads
are captured only after simulate reports termination. -/
theorem c7_strict_sequencing (outdir ct : String) (nt iw : Nat)
    (bp : Option PredictorVal) (e : EngineOutcome) (tr : List Ev)
    (hct : ct = "MinorCPU" ∨ ct = "DerivO3CPU")
    (htr : tr = (run_events outdir ct nt iw bp e).1) :
    List.countP isRootNonFS tr = 1 ∧
    List.countP isInst (tr.take (idxOf isRoot tr)) = 0 ∧
    List.countP isRoot (tr.take (idxOf isInst tr)) = 1 ∧
    List.countP isSim (tr.take (idxOf isInst tr)) = 0 ∧
    List.countP isInst (tr.take (idxOf isSim tr)) = 1 ∧
    List.countP isSim (tr.take (idxOf isCapCause tr)) = 1 ∧
    List.countP isCapCause (tr.take (idxOf isSim tr)) = 0 ∧
    List.countP isCapIPC (tr.take (idxOf isSim tr)) = 0 ∧
    List.countP isCapInsts (tr.take (idxOf isSim tr)) = 0 ∧
    List.countP isCapCycles (tr.take (idxOf isSim tr)) = 0 := by
  subst htr
  rcases hct with rfl | rfl <;> rcases bp with _ | ⟨nm, tb⟩ <;> try cases tb
  all_goals exact ⟨rfl, rfl, rfl, rfl, rfl, rfl, rfl, rfl, rfl, rfl⟩

/-- Witness for C7 on the concrete basic run. -/
theorem c7_strict_sequencing_witness :
    List.countP isRootNonFS demoRun = 1 ∧
    List.countP isInst (demoRun.take (idxOf isRoot demoRun)) = 0 ∧
    List.countP isRoot (demoRun.take (idxOf isInst demoRun)) = 1 ∧
    List.countP isSim (demoRun.take (idxOf isInst demoRun)) = 0 ∧
    List.countP isInst (demoRun.take (idxOf isSim demoRun)) = 1 ∧
    List.countP isSim (demoRun.take (idxOf isCapCause demoRun)) = 1 ∧
    List.countP isCapCause (demoRun.take (idxOf isSim demoRun)) = 0 ∧
    List.countP isCapIPC (demoRun.take (idxOf isSim demoRun)) = 0 ∧
    List.countP isCapInsts (demoRun.take (idxOf isSim demoRun)) = 0 ∧
    List.countP isCapCycles (demoRun.take (idxOf isSim demoRun)) = 0 :=
  c7_strict_sequencing "out" "MinorCPU" 1 1 none demoE demoRun (Or.inl rfl) rfl

/-- Claim C8 is false as stated: the concrete basic run prints six lines,
not four — `Starting simulation...` precedes the termination line and
`Collecting stats...` sits between the termination line and the metric
lines, so the output does not consist solely of the termination line
followed by the three metric lines. -/
theorem c8_counterexample : ¬ c8OutputForm (outputLines demoRun) := by
  intro hform
  obtain ⟨t, c, n, f, y, h⟩ := hform
  have hlen : (outputLines demoRun).length = 6 := rfl
  rw [h] at hlen
  simp at hlen

/-- Claim C8 (amended): each run's printed output is exactly
`Starting simulation...`, the termination line
`Simulation ended at tick <T> because <cause>`, `Collecting stats...`,
and then the three metric lines `Instructions committed: <n>`,
`Instructions per Cycle: <f>`, `Total cycles: <n>` in that order. -/
theorem c8_output_lines (outdir ct : String) (nt iw : Nat)
    (bp : Option PredictorVal) (e : EngineOutcome)
    (hct : ct = "MinorCPU" ∨ ct = "DerivO3CPU") :
    outputLines (run_events outdir ct nt iw bp e).1 =
      ["Starting simulation...",
       "Simulation ended at tick " ++ toString e.tick ++ " because " ++ e.cause,
       "Collecting stats...",
       "Instructions committed: " ++ toString e.insts,
       "Instructions per Cycle: " ++ e.ipc,
       "Total cycles: " ++ toString e.cycles] := by
  rcases hct with rfl | rfl <;> rcases bp with _ | ⟨nm, tb⟩ <;> try cases tb
  all_goals rfl

/-- Witness for the amended C8 on the concrete basic run. -/
theorem c8_output_lines_witness :
    outputLines (run_events "out" "MinorCPU" 1 1 none demoE).1 =
      ["Starting simulation...",
       "Simulation ended at tick " ++ toString demoE.tick ++ " because " ++
         demoE.cause,
       "Collecting stats...",
       "Instructions committed: " ++ toString demoE.insts,
       "Instructions per Cycle: " ++ demoE.ipc,
       "Total cycles: " ++ toString demoE.cycles] :=
  c8_output_lines "out" "MinorCPU" 1 1 none demoE (Or.inl rfl)
